import Mathlib

/-!
# Verification of the DIM advanced-write-action broker and loadout adapter

Shallow embedding of two source files of the DIM repository:

* `src/app/inventory/advanced-write-actions.ts` — the action-token broker
  (`getAwaToken`, `tokenValid`), the plug-insertion workflow (`insertPlug`)
  and the post-mutation item refresh (`refreshItemAfterAWA`);
* the loadout shape adapter (`convertDimApiLoadoutToLoadout`,
  `convertDimApiLoadoutItemToLoadoutItem`).

Asynchronous effects (notifications shown, durable-storage writes, state
dispatches, the outcome of each awaited remote call) are made explicit:
each workflow is a total function from its inputs and the outcomes of the
remote calls it awaits to a record of the effects it performs plus its
result. JavaScript truthiness on optional fields is modelled with `Option`
(`none` = absent / `undefined`), with the empty string and `0` also falsy
where the source applies `||` or `!` to a string or number.
-/

namespace DIM

/-- The `AwaUserSelection` enum from `bungie-api-ts`. -/
inductive AwaUserSelection where
  | none
  | approved
  | rejected
  deriving DecidableEq

/-- The fields of `AwaAuthorizationResult` that the broker reads.
Timestamps are `Nat` (milliseconds); `validUntil = Option.none` models an
absent/falsy `validUntil` field. -/
structure AwaAuthorizationResult where
  actionToken : String
  validUntil : Option Nat
  maximumNumberOfUses : Nat
  userSelection : AwaUserSelection
  developerNote : String
  deriving DecidableEq

/-- A cached token record: `AwaAuthorizationResult & \x7b used: number \x7d`. -/
structure TokenRecord extends AwaAuthorizationResult where
  used : Nat
  deriving DecidableEq

/-- `tokenValid` from `advanced-write-actions.ts` (lines 148-154), with the
current time an explicit parameter: valid iff (no expiry, or the expiry is
strictly in the future) and (the use quota is 0, or `used <= quota`) and the
user selection is Approved. -/
def tokenValid (now : Nat) (info : TokenRecord) : Bool :=
  (match info.validUntil with
   | Option.none => true
   | Option.some v => decide (now < v)) &&
  (decide (info.maximumNumberOfUses = 0) ||
    decide (info.used ≤ info.maximumNumberOfUses)) &&
  decide (info.userSelection = AwaUserSelection.approved)

theorem tokenValid_eq_true_iff (now : Nat) (info : TokenRecord) :
    tokenValid now info = true ↔
      ((info.validUntil = Option.none ∨
          ∃ v, info.validUntil = Option.some v ∧ now < v) ∧
       (info.maximumNumberOfUses = 0 ∨ info.used ≤ info.maximumNumberOfUses) ∧
       info.userSelection = AwaUserSelection.approved) := by
  unfold tokenValid
  cases h : info.validUntil <;>
    simp [h, Bool.and_eq_true, Bool.or_eq_true, decide_eq_true_iff, and_assoc]

/-- C1: `tokenValid` returns true iff (no `validUntil`, or `validUntil` is
strictly in the future) and (`maximumNumberOfUses` is 0, or `used` is at most
`maximumNumberOfUses`) and `userSelection` is Approved; in particular a record
with no expiry, quota 0 and Approved selection is valid for every used count. -/
theorem tokenValid_characterization (now : Nat) (info : TokenRecord) :
    (tokenValid now info = true ↔
      ((info.validUntil = Option.none ∨
          ∃ v, info.validUntil = Option.some v ∧ now < v) ∧
       (info.maximumNumberOfUses = 0 ∨ info.used ≤ info.maximumNumberOfUses) ∧
       info.userSelection = AwaUserSelection.approved)) ∧
    (info.validUntil = Option.none → info.maximumNumberOfUses = 0 →
      info.userSelection = AwaUserSelection.approved →
      tokenValid now info = true) := by
  refine ⟨tokenValid_eq_true_iff now info, fun h1 h2 h3 => ?_⟩
  exact (tokenValid_eq_true_iff now info).mpr ⟨Or.inl h1, Or.inl h2, h3⟩

/-- Witness for C1: a no-expiry, quota-0, Approved record with a large used
count is valid. -/
theorem tokenValid_characterization_witness :
    tokenValid 0 ⟨⟨"tok", Option.none, 0, AwaUserSelection.approved, "n"⟩, 999⟩
      = true :=
  (tokenValid_characterization 0
    ⟨⟨"tok", Option.none, 0, AwaUserSelection.approved, "n"⟩, 999⟩).2 rfl rfl rfl

/-- A record that is exactly at its nonzero quota: `used = maximumNumberOfUses = 1`. -/
def atQuotaRecord : TokenRecord :=
  ⟨⟨"tok", Option.none, 1, AwaUserSelection.approved, "n"⟩, 1⟩

/-- C2 counterexample: a record whose used count equals its nonzero quota
(`used ≥ maximumNumberOfUses` with `maximumNumberOfUses ≠ 0`) is still valid,
because the source tests `used <= maximumNumberOfUses`, so the claim that
validity is false whenever `used ≥ quota` fails at this record. -/
theorem tokenValid_at_quota_counterexample :
    atQuotaRecord.maximumNumberOfUses ≠ 0 ∧
    atQuotaRecord.maximumNumberOfUses ≤ atQuotaRecord.used ∧
    tokenValid 0 atQuotaRecord = true := by
  exact ⟨by decide, by decide, by decide⟩

/-- C2 (amended): for every record with a nonzero `maximumNumberOfUses` whose
used count strictly exceeds the quota, `tokenValid` returns false. -/
theorem tokenValid_over_quota (now : Nat) (info : TokenRecord)
    (hmax : info.maximumNumberOfUses ≠ 0)
    (hused : info.maximumNumberOfUses < info.used) :
    tokenValid now info = false := by
  unfold tokenValid
  have h1 : decide (info.maximumNumberOfUses = 0) = false := by
    simpa using hmax
  have h2 : decide (info.used ≤ info.maximumNumberOfUses) = false := by
    simpa using Nat.not_le_of_lt hused
  simp [h1, h2]

/-- Witness for C2 (amended): a record with quota 1 and used count 2 is invalid. -/
theorem tokenValid_over_quota_witness :
    tokenValid 0 ⟨⟨"tok", Option.none, 1, AwaUserSelection.approved, "n"⟩, 2⟩
      = false :=
  tokenValid_over_quota 0
    ⟨⟨"tok", Option.none, 1, AwaUserSelection.approved, "n"⟩, 2⟩
    (by decide) (by decide)

/-! ## The token cache and the `getAwaToken` workflow

`awaCache` maps the numeric `AwaType` value of an action to a cached
`TokenRecord`; it is modelled as an association list. The process-wide cache
variable is an explicit parameter here: the lazy first-use load from the
durable store supplies its initial value. The awaited remote call
`requestAdvancedWriteActionToken` is modelled by its outcome, an
`Except JsError AwaAuthorizationResult`. -/

/-- A thrown JavaScript error, as observed through its `message` field. -/
structure JsError where
  message : String
  deriving DecidableEq

/-- `DimError` as constructed by the broker: either
`new DimError(key).withError(e)` or `new DimError(key, secondaryMessage)`. -/
inductive DimError where
  | withUnderlying (key : String) (underlying : JsError)
  | withMessage (key : String) (secondaryMessage : String)
  deriving DecidableEq

/-- A notification passed to `showNotification`; `t`-localized strings are
represented by their keys. -/
structure Notification where
  type : String
  title : String
  body : String
  deriving DecidableEq

/-- The in-memory token cache `awaCache`, keyed by the numeric action type. -/
abbrev AwaCache := List (Nat × TokenRecord)

/-- Lookup `awaCache[action]`. -/
def cacheLookup (c : AwaCache) (action : Nat) : Option TokenRecord :=
  match c with
  | [] => Option.none
  | (k, r) :: rest => if k = action then Option.some r else cacheLookup rest action

/-- Assignment `awaCache[action] = r` (replaces any existing entry). -/
def cacheInsert (c : AwaCache) (action : Nat) (r : TokenRecord) : AwaCache :=
  match c with
  | [] => [(action, r)]
  | (k, r') :: rest =>
    if k = action then (action, r) :: rest else (k, r') :: cacheInsert rest action r

/-- The effects and the result of one `getAwaToken` call: the notifications
shown, whether the remote token request was issued, every durable-storage
write (each `set` of the whole cache, in order), the final in-memory cache,
and the returned token or thrown `DimError`. -/
structure GetAwaTokenResult where
  notifications : List Notification
  requested : Bool
  writes : List AwaCache
  cache : AwaCache
  result : Except DimError String

/-- The informational notification shown when a fresh token must be requested. -/
def confirmNotification : Notification :=
  ⟨"info", "AWA.ConfirmTitle", "AWA.ConfirmDescription"⟩

/-- A freshly fetched record: the remote result spread together with `used: 0`. -/
def mkFreshRecord (res : AwaAuthorizationResult) : TokenRecord :=
  { toAwaAuthorizationResult := res, used := 0 }

/-- `info ? info.developerNote : 'no response'` from the failure branch. -/
def fallbackNote : Option TokenRecord → String
  | Option.some i => i.developerNote
  | Option.none => "no response"

/-- The success tail of `getAwaToken`: `info.used++`, write the whole cache to
durable storage, return `info.actionToken`. The in-place JavaScript mutation of
the record (which is the object stored in the cache) is modelled by
re-inserting the incremented record. -/
def commitToken (notifs : List Notification) (requested : Bool)
    (cache : AwaCache) (action : Nat) (info : TokenRecord) : GetAwaTokenResult :=
  let info2 := { info with used := info.used + 1 }
  let cache2 := cacheInsert cache action info2
  ⟨notifs, requested, [cache2], cache2, Except.ok info.actionToken⟩

/-- The fresh-token branch of `getAwaToken`: show the info notification, await
the remote request; on a throw, rethrow it wrapped in a `DimError`; otherwise
store the new record (with `used: 0`) in the cache and, if it is still invalid,
throw a `DimError` carrying the developer note; else fall through to the
success tail. -/
def requestFresh (cache : AwaCache) (action : Nat)
    (remote : Except JsError AwaAuthorizationResult) (now : Nat) :
    GetAwaTokenResult :=
  match remote with
  | Except.error e =>
    ⟨[confirmNotification], true, [], cache,
      Except.error (DimError.withUnderlying "AWA.FailedToken" e)⟩
  | Except.ok res =>
    let info := mkFreshRecord res
    let cache1 := cacheInsert cache action info
    if tokenValid now info then
      commitToken [confirmNotification] true cache1 action info
    else
      ⟨[confirmNotification], true, [], cache1,
        Except.error
          (DimError.withMessage "AWA.FailedToken" (fallbackNote (Option.some info)))⟩

/-- `getAwaToken` (lines 100-146): look up the cached record for the action;
if it is present and valid, skip straight to the success tail; otherwise
request a fresh token. -/
def getAwaToken (cache : AwaCache) (action : Nat)
    (remote : Except JsError AwaAuthorizationResult) (now : Nat) :
    GetAwaTokenResult :=
  match cacheLookup cache action with
  | Option.some info =>
    if tokenValid now info then
      commitToken [] false cache action info
    else
      requestFresh cache action remote now
  | Option.none => requestFresh cache action remote now

/-- The condition under which `getAwaToken` takes the fresh-token branch:
`!info || !tokenValid(info)` on the cached record. -/
def freshNeeded (cache : AwaCache) (action now : Nat) : Bool :=
  match cacheLookup cache action with
  | Option.none => true
  | Option.some info => !tokenValid now info

/-- Whether the call threw (its result is an `Except.error`). -/
def resultFails (r : GetAwaTokenResult) : Bool :=
  match r.result with
  | Except.ok _ => false
  | Except.error _ => true

theorem cacheInsert_cacheInsert (c : AwaCache) (k : Nat) (r r' : TokenRecord) :
    cacheInsert (cacheInsert c k r) k r' = cacheInsert c k r' := by
  induction c with
  | nil => simp [cacheInsert]
  | cons hd tl ih =>
    obtain ⟨k', r''⟩ := hd
    by_cases h : k' = k <;> simp [cacheInsert, h, ih]

theorem requestFresh_error (cache : AwaCache) (action now : Nat) (e : JsError) :
    requestFresh cache action (Except.error e) now =
      ⟨[confirmNotification], true, [], cache,
       Except.error (DimError.withUnderlying "AWA.FailedToken" e)⟩ := rfl

theorem requestFresh_valid (cache : AwaCache) (action now : Nat)
    (res : AwaAuthorizationResult)
    (hvalid : tokenValid now (mkFreshRecord res) = true) :
    requestFresh cache action (Except.ok res) now =
      ⟨[confirmNotification], true,
       [cacheInsert cache action ⟨res, 1⟩],
       cacheInsert cache action ⟨res, 1⟩,
       Except.ok res.actionToken⟩ := by
  unfold mkFreshRecord at hvalid
  unfold requestFresh commitToken
  simp [hvalid, cacheInsert_cacheInsert, mkFreshRecord]

theorem requestFresh_invalid (cache : AwaCache) (action now : Nat)
    (res : AwaAuthorizationResult)
    (hinv : tokenValid now (mkFreshRecord res) = false) :
    requestFresh cache action (Except.ok res) now =
      ⟨[confirmNotification], true, [],
       cacheInsert cache action (mkFreshRecord res),
       Except.error (DimError.withMessage "AWA.FailedToken"
         (fallbackNote (Option.some (mkFreshRecord res))))⟩ := by
  unfold requestFresh
  simp [hinv]

theorem getAwaToken_eq_requestFresh (cache : AwaCache) (action now : Nat)
    (remote : Except JsError AwaAuthorizationResult)
    (h : freshNeeded cache action now = true) :
    getAwaToken cache action remote now = requestFresh cache action remote now := by
  cases hl : cacheLookup cache action with
  | none => simp [getAwaToken, hl]
  | some info =>
    have hv : tokenValid now info = false := by
      unfold freshNeeded at h
      rw [hl] at h
      simpa using h
    simp [getAwaToken, hl, hv]

theorem freshNeeded_eq_false_iff (cache : AwaCache) (action now : Nat) :
    freshNeeded cache action now = false ↔
      ∃ info, cacheLookup cache action = Option.some info ∧
        tokenValid now info = true := by
  unfold freshNeeded
  cases hl : cacheLookup cache action <;> simp

theorem getAwaToken_cached_valid_aux (cache : AwaCache) (action now : Nat)
    (remote : Except JsError AwaAuthorizationResult) (info : TokenRecord)
    (hlook : cacheLookup cache action = Option.some info)
    (hvalid : tokenValid now info = true) :
    getAwaToken cache action remote now =
      ⟨[], false,
       [cacheInsert cache action { info with used := info.used + 1 }],
       cacheInsert cache action { info with used := info.used + 1 },
       Except.ok info.actionToken⟩ := by
  unfold getAwaToken
  rw [hlook]
  simp [hvalid, commitToken]

theorem getAwaToken_fresh_success_aux (cache : AwaCache) (action now : Nat)
    (res : AwaAuthorizationResult)
    (hfresh : freshNeeded cache action now = true)
    (hvalid : tokenValid now (mkFreshRecord res) = true) :
    getAwaToken cache action (Except.ok res) now =
      ⟨[confirmNotification], true,
       [cacheInsert cache action ⟨res, 1⟩],
       cacheInsert cache action ⟨res, 1⟩,
       Except.ok res.actionToken⟩ := by
  rw [getAwaToken_eq_requestFresh cache action now _ hfresh]
  exact requestFresh_valid cache action now res hvalid

/-- C3: when the cache holds no valid record for the action and the remote
request succeeds with a record that is valid, `getAwaToken` shows exactly one
informational notification, issues the remote token request, stores the record
with used count 1 in the cache, persists that cache to durable storage, and
returns the record's `actionToken`. -/
theorem getAwaToken_fresh_success (cache : AwaCache) (action now : Nat)
    (res : AwaAuthorizationResult)
    (hfresh : freshNeeded cache action now = true)
    (hvalid : tokenValid now (mkFreshRecord res) = true) :
    getAwaToken cache action (Except.ok res) now =
      ⟨[confirmNotification], true,
       [cacheInsert cache action ⟨res, 1⟩],
       cacheInsert cache action ⟨res, 1⟩,
       Except.ok res.actionToken⟩ :=
  getAwaToken_fresh_success_aux cache action now res hfresh hvalid

/-- Witness for C3: on an empty cache, with a remote result that is a valid
no-expiry quota-0 Approved record, the call requests, notifies once, stores
the record with used count 1 and returns its token. -/
theorem getAwaToken_fresh_success_witness :
    getAwaToken [] 1
      (Except.ok ⟨"tok", Option.none, 0, AwaUserSelection.approved, "n"⟩) 0 =
      ⟨[confirmNotification], true,
       [cacheInsert [] 1 ⟨⟨"tok", Option.none, 0, AwaUserSelection.approved, "n"⟩, 1⟩],
       cacheInsert [] 1 ⟨⟨"tok", Option.none, 0, AwaUserSelection.approved, "n"⟩, 1⟩,
       Except.ok "tok"⟩ :=
  getAwaToken_fresh_success [] 1 0
    ⟨"tok", Option.none, 0, AwaUserSelection.approved, "n"⟩ (by rfl) (by rfl)

/-- C4: when the cache already holds a valid record for the action,
`getAwaToken` shows no notification and issues no remote request; it
increments the cached record's used counter, persists the updated cache to
durable storage, and returns the cached record's `actionToken`. -/
theorem getAwaToken_cached_valid (cache : AwaCache) (action now : Nat)
    (remote : Except JsError AwaAuthorizationResult) (info : TokenRecord)
    (hlook : cacheLookup cache action = Option.some info)
    (hvalid : tokenValid now info = true) :
    getAwaToken cache action remote now =
      ⟨[], false,
       [cacheInsert cache action { info with used := info.used + 1 }],
       cacheInsert cache action { info with used := info.used + 1 },
       Except.ok info.actionToken⟩ :=
  getAwaToken_cached_valid_aux cache action now remote info hlook hvalid

/-- Witness for C4: a cache holding a valid record with used count 0 yields
the cached token, used count 1, one durable write and no notification, with
the remote call never consulted. -/
theorem getAwaToken_cached_valid_witness :
    getAwaToken [(1, ⟨⟨"tok", Option.none, 0, AwaUserSelection.approved, "n"⟩, 0⟩)] 1
      (Except.error ⟨"unused"⟩) 0 =
      ⟨[], false,
       [cacheInsert [(1, ⟨⟨"tok", Option.none, 0, AwaUserSelection.approved, "n"⟩, 0⟩)] 1
          ⟨⟨"tok", Option.none, 0, AwaUserSelection.approved, "n"⟩, 1⟩],
       cacheInsert [(1, ⟨⟨"tok", Option.none, 0, AwaUserSelection.approved, "n"⟩, 0⟩)] 1
          ⟨⟨"tok", Option.none, 0, AwaUserSelection.approved, "n"⟩, 1⟩,
       Except.ok "tok"⟩ :=
  getAwaToken_cached_valid
    [(1, ⟨⟨"tok", Option.none, 0, AwaUserSelection.approved, "n"⟩, 0⟩)] 1 0
    (Except.error ⟨"unused"⟩)
    ⟨⟨"tok", Option.none, 0, AwaUserSelection.approved, "n"⟩, 0⟩ (by rfl) (by rfl)

/-- C5: `getAwaToken` throws exactly when a fresh token is needed and either
the remote request fails or the freshly obtained record is still invalid; a
failed remote request is rethrown wrapped in a `DimError` carrying the key
`AWA.FailedToken`, and a still-invalid fresh record throws a `DimError` whose
secondary message is the conditional `info ? info.developerNote : 'no response'`
applied to the stored response record. -/
theorem getAwaToken_failure_spec (cache : AwaCache) (action now : Nat)
    (remote : Except JsError AwaAuthorizationResult) :
    (resultFails (getAwaToken cache action remote now) = true ↔
      (freshNeeded cache action now = true ∧
        ∀ res, remote = Except.ok res →
          tokenValid now (mkFreshRecord res) = false)) ∧
    (∀ e, remote = Except.error e → freshNeeded cache action now = true →
      (getAwaToken cache action remote now).result =
        Except.error (DimError.withUnderlying "AWA.FailedToken" e)) ∧
    (∀ res, remote = Except.ok res → freshNeeded cache action now = true →
      tokenValid now (mkFreshRecord res) = false →
      (getAwaToken cache action remote now).result =
        Except.error (DimError.withMessage "AWA.FailedToken"
          (fallbackNote (Option.some (mkFreshRecord res))))) := by
  refine ⟨⟨fun hfail => ?_, fun h => ?_⟩, fun e hrem hf => ?_, fun res hrem hf hinv => ?_⟩
  · by_cases hf : freshNeeded cache action now = true
    · refine ⟨hf, fun res hres => ?_⟩
      subst hres
      by_cases hv : tokenValid now (mkFreshRecord res) = true
      · rw [getAwaToken_eq_requestFresh cache action now _ hf,
            requestFresh_valid cache action now res hv] at hfail
        simp [resultFails] at hfail
      · simpa using hv
    · rw [Bool.not_eq_true] at hf
      obtain ⟨info, hl, hv⟩ := (freshNeeded_eq_false_iff cache action now).mp hf
      rw [getAwaToken_cached_valid_aux cache action now remote info hl hv] at hfail
      simp [resultFails] at hfail
  · obtain ⟨hf, hinv⟩ := h
    rw [getAwaToken_eq_requestFresh cache action now remote hf]
    cases remote with
    | error e => rw [requestFresh_error]; rfl
    | ok res =>
      rw [requestFresh_invalid cache action now res (hinv res rfl)]
      rfl
  · subst hrem
    rw [getAwaToken_eq_requestFresh cache action now _ hf, requestFresh_error]
  · subst hrem
    rw [getAwaToken_eq_requestFresh cache action now _ hf,
        requestFresh_invalid cache action now res hinv]

/-- Witness for C5: on an empty cache a failing remote request makes the call
throw the wrapped error. -/
theorem getAwaToken_failure_spec_witness :
    (getAwaToken [] 1 (Except.error ⟨"boom"⟩) 0).result =
      Except.error (DimError.withUnderlying "AWA.FailedToken" ⟨"boom"⟩) :=
  (getAwaToken_failure_spec [] 1 0 (Except.error ⟨"boom"⟩)).2.1 ⟨"boom"⟩ rfl (by rfl)

/-- C10: whenever `getAwaToken` throws, it performs no durable-storage write;
on the path where the remote request succeeded but the fresh record is still
invalid, the in-memory cache nevertheless already holds the new record. -/
theorem getAwaToken_no_write_on_failure (cache : AwaCache) (action now : Nat)
    (remote : Except JsError AwaAuthorizationResult)
    (hfail : resultFails (getAwaToken cache action remote now) = true) :
    (getAwaToken cache action remote now).writes = [] ∧
    (∀ res, remote = Except.ok res →
      (getAwaToken cache action remote now).cache =
        cacheInsert cache action (mkFreshRecord res)) := by
  by_cases hf : freshNeeded cache action now = true
  · rw [getAwaToken_eq_requestFresh cache action now remote hf] at hfail ⊢
    cases remote with
    | error e =>
      rw [requestFresh_error]
      exact ⟨rfl, fun res hres => by cases hres⟩
    | ok res =>
      by_cases hv : tokenValid now (mkFreshRecord res) = true
      · rw [requestFresh_valid cache action now res hv] at hfail
        simp [resultFails] at hfail
      · rw [Bool.not_eq_true] at hv
        rw [requestFresh_invalid cache action now res hv]
        refine ⟨rfl, fun res' hres => ?_⟩
        cases hres
        rfl
  · rw [Bool.not_eq_true] at hf
    obtain ⟨info, hl, hv⟩ := (freshNeeded_eq_false_iff cache action now).mp hf
    rw [getAwaToken_cached_valid_aux cache action now remote info hl hv] at hfail
    simp [resultFails] at hfail

/-- Witness for C10: the failing call of the C5 witness performs no
durable-storage write. -/
theorem getAwaToken_no_write_on_failure_witness :
    (getAwaToken [] 2 (Except.error ⟨"down"⟩) 0).writes = [] :=
  (getAwaToken_no_write_on_failure [] 2 0 (Except.error ⟨"down"⟩) (by rfl)).1

/-! ## The loadout shape adapter

Embedding of `convertDimApiLoadoutToLoadout` and
`convertDimApiLoadoutItemToLoadoutItem`. Optional fields of the persisted
shapes are `Option`; the `parameters` payload is carried opaquely and
modelled by an opaque numeric stand-in. -/

/-- The persisted `DimApiLoadoutItem` shape: `id` and `amount` are optional. -/
structure DimApiLoadoutItem where
  id : Option String
  hash : Nat
  amount : Option Nat
  deriving DecidableEq

/-- The in-memory `LoadoutItem` shape. -/
structure LoadoutItem where
  id : String
  hash : Nat
  amount : Nat
  equipped : Bool
  deriving DecidableEq

/-- The opaque `LoadoutParameters` payload, carried through unchanged. -/
abbrev LoadoutParameters := Nat

/-- The persisted `DimApiLoadout` shape. -/
structure DimApiLoadout where
  id : String
  classType : Nat
  name : String
  clearSpace : Option Bool
  equipped : List DimApiLoadoutItem
  unequipped : List DimApiLoadoutItem
  parameters : Option LoadoutParameters
  deriving DecidableEq

/-- The in-memory `Loadout` shape. -/
structure Loadout where
  id : String
  classType : Nat
  name : String
  clearSpace : Bool
  items : List LoadoutItem
  parameters : Option LoadoutParameters
  deriving DecidableEq

/-- `convertDimApiLoadoutItemToLoadoutItem` (part_000, lines 46-56):
`id: item.id || '0'` (absent or empty string gives the sentinel "0"),
`amount: item.amount || 1` (absent or zero gives 1), `hash` copied, and the
`equipped` flag taken from the argument. -/
def convertDimApiLoadoutItemToLoadoutItem (item : DimApiLoadoutItem)
    (equipped : Bool) : LoadoutItem :=
  { id :=
      match item.id with
      | Option.none => "0"
      | Option.some s => if s = "" then "0" else s,
    hash := item.hash,
    amount :=
      match item.amount with
      | Option.none => 1
      | Option.some a => if a = 0 then 1 else a,
    equipped := equipped }

/-- `convertDimApiLoadoutToLoadout` (part_000, lines 29-41): converted
equipped items (flag true) followed by converted unequipped items (flag
false); `clearSpace: loadout.clearSpace || false`; the other fields copied. -/
def convertDimApiLoadoutToLoadout (loadout : DimApiLoadout) : Loadout :=
  { id := loadout.id,
    classType := loadout.classType,
    name := loadout.name,
    clearSpace := loadout.clearSpace.getD false,
    items :=
      loadout.equipped.map (fun i => convertDimApiLoadoutItemToLoadoutItem i true) ++
      loadout.unequipped.map (fun i => convertDimApiLoadoutItemToLoadoutItem i false),
    parameters := loadout.parameters }

/-- C6: converting a persisted loadout with N equipped and M unequipped items
yields exactly N+M in-memory items, the first N the converted equipped items
(all with equipped true) in order, the remaining M the converted unequipped
items (all with equipped false) in order; id, classType, name and parameters
are carried over unchanged. -/
theorem convertDimApiLoadoutToLoadout_spec (l : DimApiLoadout) :
    (convertDimApiLoadoutToLoadout l).items.length =
      l.equipped.length + l.unequipped.length ∧
    (convertDimApiLoadoutToLoadout l).items.take l.equipped.length =
      l.equipped.map (fun i => convertDimApiLoadoutItemToLoadoutItem i true) ∧
    (convertDimApiLoadoutToLoadout l).items.drop l.equipped.length =
      l.unequipped.map (fun i => convertDimApiLoadoutItemToLoadoutItem i false) ∧
    (∀ x ∈ (convertDimApiLoadoutToLoadout l).items.take l.equipped.length,
      x.equipped = true) ∧
    (∀ x ∈ (convertDimApiLoadoutToLoadout l).items.drop l.equipped.length,
      x.equipped = false) ∧
    (convertDimApiLoadoutToLoadout l).id = l.id ∧
    (convertDimApiLoadoutToLoadout l).classType = l.classType ∧
    (convertDimApiLoadoutToLoadout l).name = l.name ∧
    (convertDimApiLoadoutToLoadout l).parameters = l.parameters := by
  have hlen : (l.equipped.map
      (fun i => convertDimApiLoadoutItemToLoadoutItem i true)).length =
      l.equipped.length := List.length_map _ _
  have htake : (convertDimApiLoadoutToLoadout l).items.take l.equipped.length =
      l.equipped.map (fun i => convertDimApiLoadoutItemToLoadoutItem i true) := by
    unfold convertDimApiLoadoutToLoadout
    rw [← hlen]
    exact
      (List.take_left
        (l.equipped.map (fun i => convertDimApiLoadoutItemToLoadoutItem i true))
        (l.unequipped.map (fun i => convertDimApiLoadoutItemToLoadoutItem i false)))
  have hdrop : (convertDimApiLoadoutToLoadout l).items.drop l.equipped.length =
      l.unequipped.map (fun i => convertDimApiLoadoutItemToLoadoutItem i false) := by
    unfold convertDimApiLoadoutToLoadout
    rw [← hlen]
    exact
      (List.drop_left
        (l.equipped.map (fun i => convertDimApiLoadoutItemToLoadoutItem i true))
        (l.unequipped.map (fun i => convertDimApiLoadoutItemToLoadoutItem i false)))
  refine ⟨?_, htake, hdrop, ?_, ?_, rfl, rfl, rfl, rfl⟩
  · simp [convertDimApiLoadoutToLoadout]
  · intro x hx
    rw [htake] at hx
    obtain ⟨i, _, rfl⟩ := List.mem_map.mp hx
    rfl
  · intro x hx
    rw [hdrop] at hx
    obtain ⟨i, _, rfl⟩ := List.mem_map.mp hx
    rfl

/-- Witness for C6 at a concrete two-equipped, one-unequipped loadout. -/
theorem convertDimApiLoadoutToLoadout_spec_witness :
    (convertDimApiLoadoutToLoadout
      ⟨"lid", 2, "nm", Option.some true,
       [⟨Option.some "a", 10, Option.some 1⟩, ⟨Option.none, 11, Option.none⟩],
       [⟨Option.some "c", 12, Option.some 0⟩],
       Option.some 5⟩).items.length = 2 + 1 :=
  (convertDimApiLoadoutToLoadout_spec
    ⟨"lid", 2, "nm", Option.some true,
     [⟨Option.some "a", 10, Option.some 1⟩, ⟨Option.none, 11, Option.none⟩],
     [⟨Option.some "c", 12, Option.some 0⟩],
     Option.some 5⟩).1

/-- An item whose persisted id is present but is the empty string. -/
def emptyIdItem : DimApiLoadoutItem := ⟨Option.some "", 7, Option.some 2⟩

/-- C7 counterexample: for an item whose persisted id is present but empty,
the conversion yields the sentinel "0", not the persisted id, because the
source computes `item.id || '0'` and the empty string is falsy; so the claim
that a present id is carried over unchanged fails at this item. -/
theorem convertItem_empty_id_counterexample :
    emptyIdItem.id = Option.some "" ∧
    (convertDimApiLoadoutItemToLoadoutItem emptyIdItem true).id = "0" ∧
    (convertDimApiLoadoutItemToLoadoutItem emptyIdItem true).id ≠ "" :=
  ⟨rfl, rfl, by decide⟩

/-- C7 (amended): the single-item conversion gives id "0" when the persisted
id is absent or the empty string and the persisted id otherwise, amount 1 when
the persisted amount is absent or 0 and the persisted amount otherwise, copies
the hash, and sets equipped to the given flag; it is a pure total function. -/
theorem convertDimApiLoadoutItemToLoadoutItem_spec (item : DimApiLoadoutItem)
    (equipped : Bool) :
    ((item.id = Option.none ∨ item.id = Option.some "") →
      (convertDimApiLoadoutItemToLoadoutItem item equipped).id = "0") ∧
    (∀ s, item.id = Option.some s → s ≠ "" →
      (convertDimApiLoadoutItemToLoadoutItem item equipped).id = s) ∧
    ((item.amount = Option.none ∨ item.amount = Option.some 0) →
      (convertDimApiLoadoutItemToLoadoutItem item equipped).amount = 1) ∧
    (∀ a, item.amount = Option.some a → a ≠ 0 →
      (convertDimApiLoadoutItemToLoadoutItem item equipped).amount = a) ∧
    (convertDimApiLoadoutItemToLoadoutItem item equipped).hash = item.hash ∧
    (convertDimApiLoadoutItemToLoadoutItem item equipped).equipped = equipped := by
  refine ⟨fun h => ?_, fun s hs hne => ?_, fun h => ?_, fun a ha hne => ?_, rfl, rfl⟩
  · rcases h with h | h <;> simp [convertDimApiLoadoutItemToLoadoutItem, h]
  · simp [convertDimApiLoadoutItemToLoadoutItem, hs, hne]
  · rcases h with h | h <;> simp [convertDimApiLoadoutItemToLoadoutItem, h]
  · simp [convertDimApiLoadoutItemToLoadoutItem, ha, hne]

/-- Witness for C7 (amended): an item with a nonempty id "42" and amount 3
converts to id "42" and amount 3. -/
theorem convertDimApiLoadoutItemToLoadoutItem_spec_witness :
    (convertDimApiLoadoutItemToLoadoutItem
        ⟨Option.some "42", 9, Option.some 3⟩ false).id = "42" ∧
    (convertDimApiLoadoutItemToLoadoutItem
        ⟨Option.some "42", 9, Option.some 3⟩ false).amount = 3 :=
  ⟨(convertDimApiLoadoutItemToLoadoutItem_spec
      ⟨Option.some "42", 9, Option.some 3⟩ false).2.1 "42" rfl (by decide),
   (convertDimApiLoadoutItemToLoadoutItem_spec
      ⟨Option.some "42", 9, Option.some 3⟩ false).2.2.2.1 3 rfl (by decide)⟩

/-! ## The plug-insertion and item-refresh workflows

`insertPlug` awaits token acquisition, the remote `insertSocketPlug` call and
the refresh dispatch inside one try/catch; `refreshItemAfterAWA` awaits
`getSingleItem` inside its own try/catch and always dispatches exactly once.
Each awaited remote call is modelled by its outcome. The fetched item record
and the extra inventory fields of `DestinyItemChangeResponse` are carried
opaquely. -/

/-- The opaque full item record returned by `getSingleItem`. -/
abbrev ItemInfo := Nat

/-- The fields of `DestinyItemChangeResponse` as the workflow sees them: the
`item` field that the refresh overlays, plus the remaining payload carried
opaquely and unchanged. -/
structure DestinyItemChangeResponse where
  item : ItemInfo
  rest : Nat
  deriving DecidableEq

/-- The effects of one `refreshItemAfterAWA` call: how many errors were
logged and each `awaItemChanged` dispatch, in order (the dispatched action is
identified by the change response it carries; manifest and bucket data are
ambient). -/
structure RefreshItemResult where
  errorLogs : Nat
  dispatches : List DestinyItemChangeResponse
  deriving DecidableEq

/-- `refreshItemAfterAWA` (lines 64-84): try to re-fetch the item; on success
overlay the fetched record onto the change response's `item` field; on a
throw, log the error and keep the original response; in both cases dispatch
`awaItemChanged` exactly once with the resulting response. -/
def refreshItemAfterAWA (changes : DestinyItemChangeResponse)
    (fetchResult : Except JsError ItemInfo) : RefreshItemResult :=
  match fetchResult with
  | Except.ok itemInfo => ⟨0, [{ changes with item := itemInfo }]⟩
  | Except.error _ => ⟨1, [changes]⟩

/-- The effects of one `insertPlug` dispatch: errors logged, notifications
shown, and every `awaItemChanged` dispatch. The function is total: the
try/catch converts every throw of the awaited calls into logging plus an
error notification, so no exception escapes. -/
structure InsertPlugResult where
  errorLogs : Nat
  notifications : List Notification
  dispatches : List DestinyItemChangeResponse
  deriving DecidableEq

/-- `insertPlug` (lines 28-59): await the token, await the remote
`insertSocketPlug` call with it, then run the refresh workflow; any throw
from those awaits is caught, logged, and surfaced as one error notification
whose body is the thrown error's message. Token acquisition is modelled by
its outcome and the remote call by a function of the token. -/
def insertPlug (tokenResult : Except JsError String)
    (plugResult : String → Except JsError DestinyItemChangeResponse)
    (fetchResult : Except JsError ItemInfo) : InsertPlugResult :=
  match tokenResult with
  | Except.error e => ⟨1, [⟨"error", "AWA.Error", e.message⟩], []⟩
  | Except.ok actionToken =>
    match plugResult actionToken with
    | Except.error e => ⟨1, [⟨"error", "AWA.Error", e.message⟩], []⟩
    | Except.ok response =>
      let r := refreshItemAfterAWA response fetchResult
      ⟨r.errorLogs, [], r.dispatches⟩

/-- C8: when token acquisition or the remote plug-insertion call throws,
`insertPlug` logs the error, shows exactly one error notification whose body
is the thrown error's message, and performs no state dispatch; no exception
escapes (the workflow is a total function into its effect record). -/
theorem insertPlug_failure_spec (tokenResult : Except JsError String)
    (plugResult : String → Except JsError DestinyItemChangeResponse)
    (fetchResult : Except JsError ItemInfo) :
    (∀ e, tokenResult = Except.error e →
      insertPlug tokenResult plugResult fetchResult =
        ⟨1, [⟨"error", "AWA.Error", e.message⟩], []⟩) ∧
    (∀ tok e, tokenResult = Except.ok tok → plugResult tok = Except.error e →
      insertPlug tokenResult plugResult fetchResult =
        ⟨1, [⟨"error", "AWA.Error", e.message⟩], []⟩) := by
  constructor
  · intro e h
    subst h
    rfl
  · intro tok e htok hplug
    subst htok
    simp [insertPlug, hplug]

/-- Witness for C8: a throwing remote plug-insertion call yields one error
notification carrying the thrown message and no dispatch. -/
theorem insertPlug_failure_spec_witness :
    insertPlug (Except.ok "tok") (fun _ => Except.error ⟨"plug failed"⟩)
      (Except.ok 7) =
      ⟨1, [⟨"error", "AWA.Error", "plug failed"⟩], []⟩ :=
  (insertPlug_failure_spec (Except.ok "tok")
    (fun _ => Except.error ⟨"plug failed"⟩) (Except.ok 7)).2
    "tok" ⟨"plug failed"⟩ rfl rfl

/-- C9: `refreshItemAfterAWA` dispatches exactly once whether or not the
re-fetch succeeds; on success the dispatched change response has its `item`
field replaced by the fetched record and everything else unchanged, with
nothing logged; on failure the error is logged once and the dispatched change
response is the original one. -/
theorem refreshItemAfterAWA_spec (changes : DestinyItemChangeResponse)
    (fetchResult : Except JsError ItemInfo) :
    (refreshItemAfterAWA changes fetchResult).dispatches.length = 1 ∧
    (∀ itemInfo, fetchResult = Except.ok itemInfo →
      refreshItemAfterAWA changes fetchResult =
        ⟨0, [{ changes with item := itemInfo }]⟩) ∧
    (∀ e, fetchResult = Except.error e →
      refreshItemAfterAWA changes fetchResult = ⟨1, [changes]⟩) := by
  refine ⟨?_, fun itemInfo h => ?_, fun e h => ?_⟩
  · cases fetchResult <;> rfl
  · subst h; rfl
  · subst h; rfl

/-- Witness for C9: a successful re-fetch dispatches the change response with
its item field overlaid by the fetched record. -/
theorem refreshItemAfterAWA_spec_witness :
    refreshItemAfterAWA ⟨3, 9⟩ (Except.ok 42) = ⟨0, [⟨42, 9⟩]⟩ :=
  (refreshItemAfterAWA_spec ⟨3, 9⟩ (Except.ok 42)).2.1 42 rfl

end DIM
